import Mathlib

/-!
A shallow embedding of the zkSync deployment / call-execution engine of
`boa_zksync` (`environment.py`, `deployer.py`), with proofs of its key
behavioural properties.

Bytes are modelled as `Nat` (values < 256 where produced by the code),
byte strings as `List Nat`.  Machine words inside SHA-256 are `Nat`
truncated explicitly modulo `2 ^ 32`.  Fallible Python code is embedded as
functions into `Except`; the RPC transport is an explicit oracle and every
network request the engine issues is recorded, in order, in an event log.
-/

namespace BoaZk

/-- Big-endian encoding of `n` on `k` bytes (Python `n.to_bytes(k, "big")`,
taken modulo `256 ^ k`). -/
def toBytesBE : Nat → Nat → List Nat
  | 0, _ => []
  | k + 1, n => toBytesBE k (n / 256) ++ [n % 256]

/-! ### SHA-256 (FIPS 180-4), as called through `hashlib.sha256` -/

/-- Truncation to a 32-bit word. -/
def w32 (n : Nat) : Nat := n % 2 ^ 32

/-- Right rotation of a 32-bit word by `r` bits. -/
def rotr (r x : Nat) : Nat := (x >>> r ||| x <<< (32 - r)) % 2 ^ 32

/-- The SHA-256 `Ch` function (bitwise complement on 32 bits). -/
def shaCh (x y z : Nat) : Nat := (x &&& y) ^^^ ((x ^^^ 0xffffffff) &&& z)

/-- The SHA-256 `Maj` function. -/
def shaMaj (x y z : Nat) : Nat := (x &&& y) ^^^ (x &&& z) ^^^ (y &&& z)

/-- The SHA-256 `Σ0` function. -/
def bigSigma0 (x : Nat) : Nat := rotr 2 x ^^^ rotr 13 x ^^^ rotr 22 x

/-- The SHA-256 `Σ1` function. -/
def bigSigma1 (x : Nat) : Nat := rotr 6 x ^^^ rotr 11 x ^^^ rotr 25 x

/-- The SHA-256 `σ0` function. -/
def smallSigma0 (x : Nat) : Nat := rotr 7 x ^^^ rotr 18 x ^^^ (x >>> 3)

/-- The SHA-256 `σ1` function. -/
def smallSigma1 (x : Nat) : Nat := rotr 17 x ^^^ rotr 19 x ^^^ (x >>> 10)

/-- The 64 SHA-256 round constants. -/
def shaK : List Nat :=
  [1116352408, 1899447441, 3049323471, 3921009573, 961987163, 1508970993,
   2453635748, 2870763221, 3624381080, 310598401, 607225278, 1426881987,
   1925078388, 2162078206, 2614888103, 3248222580, 3835390401, 4022224774,
   264347078, 604807628, 770255983, 1249150122, 1555081692, 1996064986,
   2554220882, 2821834349, 2952996808, 3210313671, 3336571891, 3584528711,
   113926993, 338241895, 666307205, 773529912, 1294757372, 1396182291,
   1695183700, 1986661051, 2177026350, 2456956037, 2730485921, 2820302411,
   3259730800, 3345764771, 3516065817, 3600352804, 4094571909, 275423344,
   430227734, 506948616, 659060556, 883997877, 958139571, 1322822218,
   1537002063, 1747873779, 1955562222, 2024104815, 2227730452, 2361852424,
   2428436474, 2756734187, 3204031479, 3329325298]

/-- The SHA-256 working state: eight 32-bit words. -/
structure Sha256State where
  a : Nat
  b : Nat
  c : Nat
  d : Nat
  e : Nat
  f : Nat
  g : Nat
  hh : Nat
  deriving DecidableEq, Repr

/-- The SHA-256 initial hash value. -/
def sha256Init : Sha256State :=
  ⟨1779033703, 3144134277, 1013904242, 2773480762,
   1359893119, 2600822924, 528734635, 1541459225⟩

/-- One SHA-256 compression round: `w` is the schedule word, `k` the round
constant. -/
def shaRound (s : Sha256State) (wk : Nat × Nat) : Sha256State :=
  let t1 := w32 (s.hh + bigSigma1 s.e + shaCh s.e s.f s.g + wk.2 + wk.1)
  let t2 := w32 (bigSigma0 s.a + shaMaj s.a s.b s.c)
  ⟨w32 (t1 + t2), s.a, s.b, s.c, w32 (s.d + t1), s.e, s.f, s.g⟩

/-- Group a byte list into big-endian 32-bit words. -/
def bytesToWords : List Nat → List Nat
  | b0 :: b1 :: b2 :: b3 :: rest =>
      (b0 * 2 ^ 24 + b1 * 2 ^ 16 + b2 * 2 ^ 8 + b3) :: bytesToWords rest
  | _ => []

/-- Append the next message-schedule word (depends on the 2nd, 7th, 15th and
16th most recent words). -/
def scheduleStep (ws : List Nat) : List Nat :=
  let n := ws.length
  ws ++ [w32 (smallSigma1 (ws.getD (n - 2) 0) + ws.getD (n - 7) 0 +
              smallSigma0 (ws.getD (n - 15) 0) + ws.getD (n - 16) 0)]

/-- Extend the 16-word schedule by `fuel` further words. -/
def extendSchedule : Nat → List Nat → List Nat
  | 0, ws => ws
  | n + 1, ws => extendSchedule n (scheduleStep ws)

/-- SHA-256 compression of one 64-byte block into the running state. -/
def shaCompress (s : Sha256State) (block : List Nat) : Sha256State :=
  let ws := extendSchedule 48 (bytesToWords block)
  let t := (List.zip ws shaK).foldl shaRound s
  ⟨w32 (s.a + t.a), w32 (s.b + t.b), w32 (s.c + t.c), w32 (s.d + t.d),
   w32 (s.e + t.e), w32 (s.f + t.f), w32 (s.g + t.g), w32 (s.hh + t.hh)⟩

/-- SHA-256 padding: a `0x80` byte, zeros up to 56 mod 64, then the bit
length on 8 big-endian bytes. -/
def shaPad (msg : List Nat) : List Nat :=
  msg ++ 0x80 :: (List.replicate ((119 - msg.length % 64) % 64) 0 ++
    toBytesBE 8 (8 * msg.length))

/-- Fold the compression function over the first `n` 64-byte blocks. -/
def shaBlocks : Nat → List Nat → Sha256State → Sha256State
  | 0, _, s => s
  | n + 1, m, s => shaBlocks n (m.drop 64) (shaCompress s (m.take 64))

/-- The SHA-256 digest (32 bytes) of a byte string. -/
def sha256 (msg : List Nat) : List Nat :=
  let padded := shaPad msg
  let s := shaBlocks (padded.length / 64) padded sha256Init
  toBytesBE 4 s.a ++ toBytesBE 4 s.b ++ toBytesBE 4 s.c ++ toBytesBE 4 s.d ++
    toBytesBE 4 s.e ++ toBytesBE 4 s.f ++ toBytesBE 4 s.g ++ toBytesBE 4 s.hh

/-! ### The Python exception values the engine can raise -/

/-- A `VMError` payload (the revert cause carried by a computation). -/
structure VMErr where
  message : String
  deriving DecidableEq, Repr

/-- A failure the RPC transport can signal for one request: a structured
JSON-RPC error (`RPCError`) or a transport HTTP error (`HTTPError`). -/
inductive RpcFailure where
  | rpcError (info : String)
  | httpError (info : String)
  deriving DecidableEq, Repr

/-- The exceptions the embedded engine can raise, as an `Except` error type:
Python `AssertionError`, `ValueError`, re-raised transport failures,
re-raised `VMError`s and boa's `_EstimateGasFailed`. -/
inductive Exc where
  | assertionError (msg : String)
  | valueError (msg : String)
  | rpc (f : RpcFailure)
  | vm (e : VMErr)
  | estimateGasFailed (f : RpcFailure)
  deriving DecidableEq, Repr

/-! ### `_hash_code` (environment.py lines 275-285) -/

/-- Embedding of `_hash_code(bytecode)`, the zkSync bytecode hash.  The two Python
`assert` statements are embedded as `AssertionError` results; on success the
result is `b"\x01\x00" + size.to_bytes(2, "big") + sha256(bytecode)[4:]`.
(Python computes `int(bytecode_len / 32)` through float division, which
agrees with `Nat` division on every length small enough to pass the
`< 2 ^ 16` word-count check.) -/
def _hash_code (bytecode : List Nat) : Except Exc (List Nat) :=
  let bytecode_len := bytecode.length
  let bytecode_size := bytecode_len / 32
  if bytecode_len % 32 ≠ 0 then
    .error (.assertionError "Bytecode length must be a multiple of 32 bytes")
  else if ¬ bytecode_size < 2 ^ 16 then
    .error (.assertionError "Bytecode length must be less than 2^16")
  else
    .ok ([0x01, 0x00] ++ toBytesBE 2 bytecode_size ++ (sha256 bytecode).drop 4)

/-! ### Data model

`ZksyncMessage`, `ZksyncComputation` and `DeployTransaction` live in
`boa_zksync/types.py`, which is not part of the sources here; they are
modelled from the spec (§3, §4.2, §4.3). -/

/-- Modelled from the spec: §3 Message — `ZksyncMessage` is the immutable
call envelope {sender, to, gas, value, data}. -/
structure ZksyncMessage where
  sender : String
  to_addr : String
  gas : Nat
  value : Nat
  data : List Nat
  deriving DecidableEq, Repr

/-- Modelled from the spec: the decoded payload of a call-tracer-formatted
trace (§4.3 path 1, glossary "Trace") — output bytes, optional revert
cause, and the message it describes. -/
structure RawTrace where
  msg : ZksyncMessage
  output : List Nat
  revertReason : Option VMErr
  deriving DecidableEq, Repr

/-- Modelled from the spec: §3 ComputationResult — {origin_message,
is_error, error, output} with the invariant `is_error == (error is
present)` (`ZksyncComputation`). -/
structure ZksyncComputation where
  msg : ZksyncMessage
  output : List Nat := []
  error : Option VMErr := none
  deriving DecidableEq, Repr

/-- Property `is_error`: per the spec invariant, a computation is an error exactly
when its error cause is present. -/
def ZksyncComputation.is_error (c : ZksyncComputation) : Bool := c.error.isSome

/-- Modelled from the spec: §4.3 path 1 — `ZksyncComputation.from_call_trace`
decodes a call-tracer response into a ComputationResult. -/
def ZksyncComputation.from_call_trace (t : RawTrace) : ZksyncComputation :=
  ⟨t.msg, t.output, t.revertReason⟩

/-- Modelled from the spec: `ZksyncComputation.from_debug_trace` decodes the
raw trace attached to a submitted transaction into a ComputationResult. -/
def ZksyncComputation.from_debug_trace (t : RawTrace) : ZksyncComputation :=
  ⟨t.msg, t.output, t.revertReason⟩

/-- The trace object boa's `_send_txn` returns beside the receipt (external
collaborator): its error status, its error cause, and its raw debug trace. -/
structure TxTrace where
  is_error : Bool
  error : Option VMErr
  raw_trace : RawTrace
  deriving DecidableEq, Repr

/-- Receipt (spec §3): an opaque network artifact from which only `blockHash` and
`contractAddress` are extracted. -/
structure Receipt where
  blockHash : String
  contractAddress : String
  deriving DecidableEq, Repr

/-! ### The RPC transport as an oracle, and the engine's request log -/

/-- One network request issued by the engine, recorded in issue order.
(`fetchMulti` is the single batched round trip of `fetch_multi`.) -/
inductive RpcEvent where
  | traceCall (args : ZksyncMessage)
  | ethCall (args : ZksyncMessage)
  | estimateGas (args : ZksyncMessage)
  | fetchMulti (reqs : List (String × List String))
  | sendTxn (args : ZksyncMessage)
  | sendRawTransaction (raw : List Nat)
  | waitForReceipt (txHash : String)
  deriving DecidableEq, Repr

/-- The RPC transport as a deterministic oracle: the response each endpoint
gives to each request.  `RPCError` / `HTTPError` outcomes are `.error`
values.  The transport's pure wire decoding (`int(-, 16)` on hex strings,
`bytes.fromhex`) is absorbed into the oracle, which answers with decoded
values: a `Nat` for `eth_estimateGas`, the decoded
(nonce, chain id, gas price) triple for the batched quote, output bytes for
`eth_call`. -/
structure RpcOracle where
  debugTraceCall : ZksyncMessage → Except RpcFailure RawTrace
  ethCall : ZksyncMessage → Except RpcFailure (List Nat)
  estimateGas : ZksyncMessage → Except RpcFailure Nat
  fetchMulti : List (String × List String) → Except RpcFailure (Nat × Nat × Nat)
  sendRawTransaction : List Nat → Except RpcFailure String
  waitForReceipt : String → Except Exc Receipt

/-- The possible outcomes of boa's `_send_txn` (external collaborator): a
receipt plus an optional trace, the `_EstimateGasFailed` exception, or any
other exception (which `execute_code` does not catch). -/
inductive SendTxnOutcome where
  | success (receipt : Receipt) (trace : Option TxTrace)
  | estimateGasFailed (f : RpcFailure)
  | raises (e : Exc)
  deriving DecidableEq, Repr

/-! ### `_compute` and `execute_code` -/

/-- Embedding of `ZksyncEnv._compute` (environment.py lines 263-272): try
`debug_traceCall` with the call tracer and decode its response; on
`RPCError` or `HTTPError` fall back to a plain `eth_call` whose output
bytes are wrapped, with the original message and no error, as the
computation.  A failure of the `eth_call` itself propagates. -/
def _compute (o : RpcOracle) (args : ZksyncMessage) :
    Except Exc ZksyncComputation × List RpcEvent :=
  match o.debugTraceCall args with
  | .ok trace_call =>
      (.ok (ZksyncComputation.from_call_trace trace_call), [.traceCall args])
  | .error _ =>
      match o.ethCall args with
      | .ok output => (.ok ⟨args, output, none⟩, [.traceCall args, .ethCall args])
      | .error f => (.error (.rpc f), [.traceCall args, .ethCall args])

/-- Rendering of `str(x)` for an optional error cause, as Python's f-string renders it:
`None` when absent, the carried message when present. -/
def strOptErr : Option VMErr → String
  | none => "None"
  | some e => e.message

/-- The message of the consistency `assert` in `execute_code`
(environment.py line 137): `VMError mismatch: ... != ...`. -/
def vmMismatchMsg (a b : Option VMErr) : String :=
  "VMError mismatch: " ++ strOptErr a ++ " != " ++ strOptErr b

/-- Embedding of `ZksyncEnv.execute_code` (environment.py lines 105-144).  `sender` is
the already-resolved sender (`_check_sender(_get_sender(..))` is a pure
boa-side lookup with no network access); `send` is boa's `_send_txn`
(external), invoked only on the modifying path. -/
def execute_code (o : RpcOracle) (send : ZksyncMessage → SendTxnOutcome)
    (sender : String) (to_address : String) (gas : Option Nat) (value : Nat)
    (data : List Nat) (is_modifying : Bool) :
    Except Exc ZksyncComputation × List RpcEvent :=
  let args : ZksyncMessage := ⟨sender, to_address, gas.getD 0, value, data⟩
  match _compute o args with
  | (.error e, log) => (.error e, log)
  | (.ok computation, log) =>
    if is_modifying then
      match send args with
      | .success _receipt trace =>
          match trace with
          | some tr =>
              if computation.is_error = tr.is_error then
                (.ok (ZksyncComputation.from_debug_trace tr.raw_trace),
                 log ++ [.sendTxn args])
              else
                (.error (.assertionError (vmMismatchMsg computation.error tr.error)),
                 log ++ [.sendTxn args])
          | none => (.ok computation, log ++ [.sendTxn args])
      | .estimateGasFailed _ =>
          if ¬ computation.is_error then
            (.ok ⟨args, [], some ⟨"Estimate gas failed"⟩⟩, log ++ [.sendTxn args])
          else
            (.ok computation, log ++ [.sendTxn args])
      | .raises e => (.error e, log ++ [.sendTxn args])
    else
      (.ok computation, log)

/-! ### `DeployTransaction`, `_estimate_gas` and `deploy_code` -/

/-- Modelled from the spec: §3 DeployTransaction — the deployment
transaction record assembled by `deploy_code` (the record type itself lives
in `boa_zksync/types.py`). -/
structure DeployTransaction where
  sender : String
  to_addr : String
  gas : Nat
  gas_price : Nat
  max_priority_fee_per_gas : Nat
  nonce : Nat
  value : Nat
  calldata : List Nat
  bytecode : List Nat
  bytecode_hash : List Nat
  dependency_bytecodes : List (List Nat)
  dependency_bytecode_hashes : List (List Nat)
  chain_id : Nat
  paymaster_params : Option (List Nat)
  deriving DecidableEq, Repr

/-- Modelled from the spec: §4.2 `get_estimate_msg()` — project the
transaction to a Message with the same sender / to / gas / value and the
prepared deployer calldata as data. -/
def DeployTransaction.get_estimate_msg (tx : DeployTransaction) : ZksyncMessage :=
  ⟨tx.sender, tx.to_addr, tx.gas, tx.value, tx.calldata⟩

/-- Embedding of `ZksyncEnv._estimate_gas` (environment.py lines 250-261): ask
`eth_estimateGas`; on success return the decoded integer.  On `RPCError`
(only — an `HTTPError` propagates uncaught) run `_compute` on the estimate
projection: if that computation reports an error, raise that error;
otherwise raise `_EstimateGasFailed` wrapping the original `RPCError`. -/
def _estimate_gas (o : RpcOracle) (tx : DeployTransaction) :
    Except Exc Nat × List RpcEvent :=
  let estimate_msg := tx.get_estimate_msg
  match o.estimateGas estimate_msg with
  | .ok estimated_gas => (.ok estimated_gas, [.estimateGas estimate_msg])
  | .error (.httpError i) =>
      (.error (.rpc (.httpError i)), [.estimateGas estimate_msg])
  | .error (.rpcError i) =>
      match _compute o tx.get_estimate_msg with
      | (.error e, log) => (.error e, .estimateGas estimate_msg :: log)
      | (.ok comp, log) =>
          match comp.error with
          | some err => (.error (.vm err), .estimateGas estimate_msg :: log)
          | none =>
              (.error (.estimateGasFailed (.rpcError i)),
               .estimateGas estimate_msg :: log)

/-- Constant `_CONTRACT_DEPLOYER_ADDRESS` (environment.py line 23). -/
def _CONTRACT_DEPLOYER_ADDRESS : String :=
  "0x0000000000000000000000000000000000008006"

/-- Python's rendering of the known-account list in the unknown-sender
message (`f"{list(self._accounts)}"`; the rendering of each element by the
external `Address` type is abstracted to the address string itself). -/
def accountsRepr (accounts : List String) : String :=
  "[" ++ String.intercalate ", " accounts ++ "]"

/-- The `ValueError` message `deploy_code` raises for an unknown sender
(environment.py lines 170-176); the `$` before the tip reproduces the
source's `${tip}` literally. -/
def unknownSenderMsg (sender : String) (accounts : List String) : String :=
  let tip :=
    if accounts ≠ [] then "Known accounts: " ++ accountsRepr accounts
    else "Did you forget to call `add_account`?"
  "Account " ++ sender ++ " is not available. $" ++ tip

/-- Sequential exception-propagating map: the embedding of the Python list
comprehension `[_hash_code(bc) for bc in dependency_bytecodes]`, where the
first raised exception aborts the whole comprehension. -/
def mapExcept (f : α → Except ε β) : List α → Except ε (List β)
  | [] => .ok []
  | a :: as =>
    match f a with
    | .error e => .error e
    | .ok b =>
      match mapExcept f as with
      | .error e => .error e
      | .ok bs => .ok (b :: bs)

/-- The three requests of the batched quote in `deploy_code`
(environment.py lines 178-184), in source order. -/
def quoteRequests (sender : String) : List (String × List String) :=
  [("eth_getTransactionCount", [sender, "latest"]),
   ("eth_chainId", []),
   ("eth_gasPrice", [])]

/-- The `DeployTransaction` record literal of `deploy_code`
(environment.py lines 188-205), given the fetched and derived values.
`prepare_calldata` is the external ABI calldata builder applied to
(salt, bytecode hash, constructor calldata). -/
def assembled_tx (sender : String) (gas : Option Nat) (gas_price : Nat)
    (max_priority_fee_per_gas : Option Nat) (nonce : Nat) (value : Nat)
    (prepare_calldata : List Nat → List Nat → List Nat → List Nat)
    (salt : List Nat) (constructor_calldata : List Nat) (bytecode : List Nat)
    (bytecode_hash : List Nat) (dependency_bytecodes : List (List Nat))
    (dependency_bytecode_hashes : List (List Nat)) (chain_id : Nat)
    (paymaster_params : Option (List Nat)) : DeployTransaction where
  sender := sender
  to_addr := _CONTRACT_DEPLOYER_ADDRESS
  gas := gas.getD 0
  gas_price := gas_price
  max_priority_fee_per_gas := max_priority_fee_per_gas.getD gas_price
  nonce := nonce
  value := value
  calldata := prepare_calldata salt bytecode_hash constructor_calldata
  bytecode := bytecode
  bytecode_hash := bytecode_hash
  dependency_bytecodes := dependency_bytecodes
  dependency_bytecode_hashes := dependency_bytecode_hashes
  chain_id := chain_id
  paymaster_params := paymaster_params

/-- Embedding of `ZksyncEnv.deploy_code` (environment.py lines 146-217).  `sender` is
the already-resolved sender; `accounts` the account registry's addresses in
order; `sign_typed_data` and `rlp_encode` are the transaction's pure
signing and wire-encoding functions (spec §4.2, layout externally defined),
and `prepare_calldata` the external ABI builder.  Returns the deployed
address and original bytecode, or the raised exception, together with the
network requests issued in order. -/
def deploy_code (o : RpcOracle) (accounts : List String)
    (prepare_calldata : List Nat → List Nat → List Nat → List Nat)
    (sign_typed_data : DeployTransaction → Nat → List Nat)
    (rlp_encode : DeployTransaction → List Nat → Nat → List Nat)
    (sender : String) (gas : Option Nat) (value : Nat) (bytecode : List Nat)
    (constructor_calldata : List Nat) (dependency_bytecodes : List (List Nat))
    (salt : List Nat) (max_priority_fee_per_gas : Option Nat)
    (paymaster_params : Option (List Nat)) :
    Except Exc (String × List Nat) × List RpcEvent :=
  if sender ∉ accounts then
    (.error (.valueError (unknownSenderMsg sender accounts)), [])
  else
    let ev0 := RpcEvent.fetchMulti (quoteRequests sender)
    match o.fetchMulti (quoteRequests sender) with
    | .error f => (.error (.rpc f), [ev0])
    | .ok (nonce, chain_id, gas_price) =>
      match _hash_code bytecode with
      | .error e => (.error e, [ev0])
      | .ok bytecode_hash =>
        match mapExcept _hash_code dependency_bytecodes with
        | .error e => (.error e, [ev0])
        | .ok dependency_bytecode_hashes =>
          let tx := assembled_tx sender gas gas_price max_priority_fee_per_gas
            nonce value prepare_calldata salt constructor_calldata bytecode
            bytecode_hash dependency_bytecodes dependency_bytecode_hashes
            chain_id paymaster_params
          match _estimate_gas o tx with
          | (.error e, log) => (.error e, ev0 :: log)
          | (.ok estimated_gas, log) =>
            let signature := sign_typed_data tx estimated_gas
            let raw_tx := rlp_encode tx signature estimated_gas
            match o.sendRawTransaction raw_tx with
            | .error f =>
                (.error (.rpc f), ev0 :: log ++ [.sendRawTransaction raw_tx])
            | .ok tx_hash =>
              match o.waitForReceipt tx_hash with
              | .error e =>
                  (.error e,
                   ev0 :: log ++ [.sendRawTransaction raw_tx, .waitForReceipt tx_hash])
              | .ok receipt =>
                  (.ok (receipt.contractAddress, bytecode),
                   ev0 :: log ++ [.sendRawTransaction raw_tx, .waitForReceipt tx_hash])

/-! ### Concrete fixtures (used by the witness theorems) -/

/-- Selector for the batched `fetch_multi` event. -/
def isFetchMulti : RpcEvent → Bool
  | .fetchMulti _ => true
  | _ => false

/-- A concrete call message. -/
def msg0 : ZksyncMessage := ⟨"0xaa", "0xbb", 0, 0, []⟩

/-- A concrete successful trace for `msg0`. -/
def trace0 : RawTrace := ⟨msg0, [1, 2], none⟩

/-- A concrete reverting trace for `msg0`. -/
def traceRevert : RawTrace := ⟨msg0, [], some ⟨"execution reverted"⟩⟩

/-- An oracle on which every endpoint succeeds. -/
def oracleTraceOk : RpcOracle where
  debugTraceCall := fun _ => .ok trace0
  ethCall := fun _ => .ok [9]
  estimateGas := fun _ => .ok 21000
  fetchMulti := fun _ => .ok (7, 280, 100)
  sendRawTransaction := fun _ => .ok "0xtxhash"
  waitForReceipt := fun _ => .ok ⟨"0xblock", "0xcontract"⟩

/-- An oracle whose trace endpoint fails with a transport error. -/
def oracleTraceFail : RpcOracle :=
  { oracleTraceOk with debugTraceCall := fun _ => .error (.httpError "boom") }

/-- An oracle whose trace endpoint reports a revert. -/
def oracleTraceRevert : RpcOracle :=
  { oracleTraceOk with debugTraceCall := fun _ => .ok traceRevert }

/-- An oracle whose gas estimation is rejected with an `RPCError` while the
trace endpoint reports a revert. -/
def oracleEstFailRevert : RpcOracle :=
  { oracleTraceOk with
      estimateGas := fun _ => .error (.rpcError "out of gas")
      debugTraceCall := fun _ => .ok traceRevert }

/-- An oracle whose gas estimation is rejected with an `RPCError` while the
trace endpoint reports success. -/
def oracleEstFailOk : RpcOracle :=
  { oracleTraceOk with estimateGas := fun _ => .error (.rpcError "out of gas") }

/-- A concrete erroring submission trace. -/
def txTraceErr : TxTrace := ⟨true, some ⟨"revert"⟩, traceRevert⟩

/-- A synthetic `_send_txn` double whose submission trace reports an error
(mismatching a successful baseline computation). -/
def sendMismatch : ZksyncMessage → SendTxnOutcome :=
  fun _ => .success ⟨"0xblock", "0xcontract"⟩ (some txTraceErr)

/-- A `_send_txn` double raising `_EstimateGasFailed`. -/
def sendEstFail : ZksyncMessage → SendTxnOutcome :=
  fun _ => .estimateGasFailed (.rpcError "cannot estimate")

/-- A trivial external ABI calldata builder for the fixtures. -/
def prep0 : List Nat → List Nat → List Nat → List Nat :=
  fun salt bch ctor => salt ++ bch ++ ctor

/-- A trivial signer for the fixtures. -/
def sign0 : DeployTransaction → Nat → List Nat := fun _ _ => [5]

/-- A trivial wire encoder for the fixtures. -/
def rlp0 : DeployTransaction → List Nat → Nat → List Nat := fun _ sig _ => sig

/-- A concrete deployment transaction for the fixtures. -/
def tx0 : DeployTransaction :=
  ⟨"0xaa", _CONTRACT_DEPLOYER_ADDRESS, 0, 100, 100, 7, 0, [],
   List.replicate 64 0, [], [], [], 280, none⟩

/-- The hash of the all-zero 64-byte bytecode (`k = 2`), as `_hash_code`
lays it out. -/
def bch64 : List Nat :=
  [0x01, 0x00] ++ toBytesBE 2 2 ++ (sha256 (List.replicate 64 0)).drop 4

/-- The transaction `deploy_code` assembles in the happy-path witness. -/
def tx64 : DeployTransaction :=
  assembled_tx "0xaa" none 100 none 7 0 prep0 (List.replicate 32 0) []
    (List.replicate 64 0) bch64 [] [] 280 none

/-! ## Theorems -/

theorem toBytesBE_length (k n : Nat) : (toBytesBE k n).length = k := by
  induction k generalizing n with
  | zero => rfl
  | succ k ih => simp [toBytesBE, ih]

theorem sha256_length (msg : List Nat) : (sha256 msg).length = 32 := by
  simp [sha256, toBytesBE_length]

/-- Sanity anchor: the NIST test vector for the empty message. -/
example : sha256 [] =
    [0xe3, 0xb0, 0xc4, 0x42, 0x98, 0xfc, 0x1c, 0x14, 0x9a, 0xfb, 0xf4, 0xc8,
     0x99, 0x6f, 0xb9, 0x24, 0x27, 0xae, 0x41, 0xe4, 0x64, 0x9b, 0x93, 0x4c,
     0xa4, 0x95, 0x99, 0x1b, 0x78, 0x52, 0xb8, 0x55] := by decide

/-- Sanity anchor: the NIST test vector for `"abc"`. -/
example : sha256 [0x61, 0x62, 0x63] =
    [0xba, 0x78, 0x16, 0xbf, 0x8f, 0x01, 0xcf, 0xea, 0x41, 0x41, 0x40, 0xde,
     0x5d, 0xae, 0x22, 0x23, 0xb0, 0x03, 0x61, 0xa3, 0x96, 0x17, 0x7a, 0x9c,
     0xb4, 0x10, 0xff, 0x61, 0xf2, 0x00, 0x15, 0xad] := by decide

/-- C1: for every bytecode of length `32 * k` with `0 < k < 2 ^ 16`,
`_hash_code` returns exactly 32 bytes: the byte `0x01`, the byte `0x00`,
the 2-byte big-endian encoding of `k`, then bytes 4..31 (the last 28
bytes) of the SHA-256 digest of the full bytecode. -/
theorem C1_hash_layout (bytecode : List Nat) (k : Nat)
    (hlen : bytecode.length = 32 * k) (hpos : 0 < k) (hlt : k < 2 ^ 16) :
    _hash_code bytecode =
      .ok ([0x01, 0x00] ++ toBytesBE 2 k ++ (sha256 bytecode).drop 4) ∧
    ([0x01, 0x00] ++ toBytesBE 2 k ++ (sha256 bytecode).drop 4).length = 32 := by
  have h1 : bytecode.length % 32 = 0 := by omega
  have h2 : bytecode.length / 32 = k := by omega
  refine ⟨?_, ?_⟩
  · simp [_hash_code, h1, h2]
    omega
  · have h3 := sha256_length bytecode
    simp [toBytesBE_length, List.length_drop, h3]

/-- Witness for C1 at the all-zero 32-byte bytecode (`k = 1`). -/
theorem C1_hash_layout_witness :
    _hash_code (List.replicate 32 0) =
      .ok ([0x01, 0x00] ++ toBytesBE 2 1 ++ (sha256 (List.replicate 32 0)).drop 4) ∧
    ([0x01, 0x00] ++ toBytesBE 2 1 ++ (sha256 (List.replicate 32 0)).drop 4).length = 32 :=
  C1_hash_layout (List.replicate 32 0) 1 (by decide) (by decide) (by decide)

/-- C2 counterexample: the claim says a zero-length bytecode makes
`_hash_code` raise, but in the code both asserts pass for the empty
bytecode (`0 % 32 == 0` and `0 < 2 ^ 16`) and a hash with word count 0 is
returned. -/
theorem C2_empty_bytecode_ok :
    _hash_code [] = .ok ([0x01, 0x00] ++ toBytesBE 2 0 ++ (sha256 []).drop 4) :=
  rfl

/-- C2 (amended): `_hash_code` raises exactly when the length is not a
multiple of 32 or the word count `length / 32` is at least `2 ^ 16`;
length zero satisfies both asserts and is hashed, not rejected. -/
theorem C2_error_iff (bytecode : List Nat) :
    (∃ e, _hash_code bytecode = .error e) ↔
      (bytecode.length % 32 ≠ 0 ∨ 2 ^ 16 ≤ bytecode.length / 32) := by
  by_cases h1 : bytecode.length % 32 = 0
  · by_cases h2 : bytecode.length / 32 < 2 ^ 16
    · have h2' : ¬ 65536 ≤ bytecode.length / 32 := by omega
      simp [_hash_code, h1, h2']
    · have h2' : 65536 ≤ bytecode.length / 32 := by omega
      simp [_hash_code, h1, h2']
  · simp [_hash_code, h1]

/-- Helper: the trace/call computation path issues no submission and no
batched fetch — its log holds only the trace request and possibly the
fallback call request. -/
theorem _compute_log (o : RpcOracle) (args : ZksyncMessage) :
    (_compute o args).2 = [.traceCall args] ∨
    (_compute o args).2 = [.traceCall args, .ethCall args] := by
  unfold _compute
  cases o.debugTraceCall args with
  | error f => cases o.ethCall args <;> simp
  | ok t => simp

/-- C6: the computation path first attempts `debug_traceCall` and decodes
its response; exactly when that attempt fails with an RPC-level or
HTTP-level error, a plain `eth_call` is issued, and its output bytes are
wrapped unmodified as a non-error computation tagged with the original
message. -/
theorem C6_compute_fallback (o : RpcOracle) (args : ZksyncMessage) :
    (∀ t, o.debugTraceCall args = .ok t →
      _compute o args =
        (.ok (ZksyncComputation.from_call_trace t), [.traceCall args])) ∧
    (∀ f out, o.debugTraceCall args = .error f → o.ethCall args = .ok out →
      _compute o args = (.ok ⟨args, out, none⟩, [.traceCall args, .ethCall args])) ∧
    ((RpcEvent.ethCall args ∈ (_compute o args).2) ↔
      ∃ f, o.debugTraceCall args = .error f) := by
  refine ⟨?_, ?_, ?_⟩
  · intro t ht
    simp [_compute, ht]
  · intro f out hf hout
    simp [_compute, hf, hout]
  · cases hd : o.debugTraceCall args with
    | error f => cases ho : o.ethCall args <;> simp [_compute, hd, ho]
    | ok t => simp [_compute, hd]

/-- Witness for C6: on `oracleTraceOk` the trace path is used and no
`eth_call` occurs; on `oracleTraceFail` (HTTP failure of the trace
endpoint) the `eth_call` output `[9]` is wrapped unmodified. -/
theorem C6_compute_fallback_witness :
    _compute oracleTraceOk msg0 =
      (.ok (ZksyncComputation.from_call_trace trace0), [.traceCall msg0]) ∧
    _compute oracleTraceFail msg0 =
      (.ok ⟨msg0, [9], none⟩, [.traceCall msg0, .ethCall msg0]) :=
  ⟨(C6_compute_fallback oracleTraceOk msg0).1 trace0 rfl,
   (C6_compute_fallback oracleTraceFail msg0).2.1 (.httpError "boom") [9] rfl rfl⟩

/-- C5: a non-modifying `execute_code` never reaches the submission path:
its result and request log are exactly those of the baseline trace/call
computation, and no `sendTxn` event is ever in its log. -/
theorem C5_readonly_never_submits (o : RpcOracle)
    (send : ZksyncMessage → SendTxnOutcome) (sender to_address : String)
    (gas : Option Nat) (value : Nat) (data : List Nat) :
    execute_code o send sender to_address gas value data false =
      _compute o ⟨sender, to_address, gas.getD 0, value, data⟩ ∧
    ∀ m, RpcEvent.sendTxn m ∉
      (execute_code o send sender to_address gas value data false).2 := by
  have hmain :
      execute_code o send sender to_address gas value data false =
        _compute o ⟨sender, to_address, gas.getD 0, value, data⟩ := by
    unfold execute_code
    rcases hc : _compute o ⟨sender, to_address, gas.getD 0, value, data⟩ with ⟨r, log⟩
    cases r <;> simp [hc]
  refine ⟨hmain, ?_⟩
  intro m
  rw [hmain]
  rcases _compute_log o ⟨sender, to_address, gas.getD 0, value, data⟩ with h | h <;>
    simp [h]

/-- C3: in a state-modifying call where both the baseline computation and a
submission trace are obtained, a mismatch of their `is_error` statuses makes
`execute_code` abort with the descriptive consistency `AssertionError`
(`VMError mismatch: ...`) rather than return a computation. -/
theorem C3_consistency_fault (o : RpcOracle)
    (send : ZksyncMessage → SendTxnOutcome) (sender to_address : String)
    (gas : Option Nat) (value : Nat) (data : List Nat)
    (computation : ZksyncComputation) (log : List RpcEvent)
    (receipt : Receipt) (tr : TxTrace)
    (hc : _compute o ⟨sender, to_address, gas.getD 0, value, data⟩ =
      (.ok computation, log))
    (hs : send ⟨sender, to_address, gas.getD 0, value, data⟩ =
      .success receipt (some tr))
    (hmis : computation.is_error ≠ tr.is_error) :
    execute_code o send sender to_address gas value data true =
      (.error (.assertionError (vmMismatchMsg computation.error tr.error)),
       log ++ [.sendTxn ⟨sender, to_address, gas.getD 0, value, data⟩]) := by
  simp [execute_code, hc, hs, hmis]

/-- Witness for C3: a successful baseline against a synthetic submission
double whose trace reports an error triggers the consistency fault. -/
theorem C3_consistency_fault_witness :
    execute_code oracleTraceOk sendMismatch "0xaa" "0xbb" none 0 [] true =
      (.error (.assertionError
        (vmMismatchMsg (ZksyncComputation.from_call_trace trace0).error
          txTraceErr.error)),
       [.traceCall ⟨"0xaa", "0xbb", (none : Option Nat).getD 0, 0, []⟩,
        .sendTxn ⟨"0xaa", "0xbb", (none : Option Nat).getD 0, 0, []⟩]) :=
  C3_consistency_fault oracleTraceOk sendMismatch "0xaa" "0xbb" none 0 []
    (ZksyncComputation.from_call_trace trace0)
    [.traceCall ⟨"0xaa", "0xbb", (none : Option Nat).getD 0, 0, []⟩]
    ⟨"0xblock", "0xcontract"⟩ txTraceErr rfl rfl (by decide)

/-- C10: on the modifying path, when submission raises `_EstimateGasFailed`
and the baseline computation already reports an error, the baseline is
returned unchanged and the failure is swallowed; the wrapped "Estimate gas
failed" computation is produced only when the baseline reported no error. -/
theorem C10_estimate_gas_swallowed (o : RpcOracle)
    (send : ZksyncMessage → SendTxnOutcome) (sender to_address : String)
    (gas : Option Nat) (value : Nat) (data : List Nat)
    (computation : ZksyncComputation) (log : List RpcEvent) (f : RpcFailure)
    (hc : _compute o ⟨sender, to_address, gas.getD 0, value, data⟩ =
      (.ok computation, log))
    (hs : send ⟨sender, to_address, gas.getD 0, value, data⟩ =
      .estimateGasFailed f) :
    (computation.is_error = true →
      execute_code o send sender to_address gas value data true =
        (.ok computation,
         log ++ [.sendTxn ⟨sender, to_address, gas.getD 0, value, data⟩])) ∧
    (computation.is_error = false →
      execute_code o send sender to_address gas value data true =
        (.ok ⟨⟨sender, to_address, gas.getD 0, value, data⟩, [],
              some ⟨"Estimate gas failed"⟩⟩,
         log ++ [.sendTxn ⟨sender, to_address, gas.getD 0, value, data⟩])) := by
  constructor
  · intro herr
    simp [execute_code, hc, hs, herr]
  · intro herr
    simp [execute_code, hc, hs, herr]

/-- Witness for C10: with an erroring baseline (`oracleTraceRevert`) the
baseline is returned unchanged; with a clean baseline (`oracleTraceOk`) the
wrapped estimate-gas-failure computation is returned. -/
theorem C10_estimate_gas_swallowed_witness :
    execute_code oracleTraceRevert sendEstFail "0xaa" "0xbb" none 0 [] true =
      (.ok (ZksyncComputation.from_call_trace traceRevert),
       [.traceCall ⟨"0xaa", "0xbb", (none : Option Nat).getD 0, 0, []⟩,
        .sendTxn ⟨"0xaa", "0xbb", (none : Option Nat).getD 0, 0, []⟩]) ∧
    execute_code oracleTraceOk sendEstFail "0xaa" "0xbb" none 0 [] true =
      (.ok ⟨⟨"0xaa", "0xbb", (none : Option Nat).getD 0, 0, []⟩, [],
            some ⟨"Estimate gas failed"⟩⟩,
       [.traceCall ⟨"0xaa", "0xbb", (none : Option Nat).getD 0, 0, []⟩,
        .sendTxn ⟨"0xaa", "0xbb", (none : Option Nat).getD 0, 0, []⟩]) :=
  ⟨(C10_estimate_gas_swallowed oracleTraceRevert sendEstFail "0xaa" "0xbb"
      none 0 [] (ZksyncComputation.from_call_trace traceRevert)
      [.traceCall ⟨"0xaa", "0xbb", (none : Option Nat).getD 0, 0, []⟩]
      (.rpcError "cannot estimate") rfl rfl).1 (by decide),
   (C10_estimate_gas_swallowed oracleTraceOk sendEstFail "0xaa" "0xbb"
      none 0 [] (ZksyncComputation.from_call_trace trace0)
      [.traceCall ⟨"0xaa", "0xbb", (none : Option Nat).getD 0, 0, []⟩]
      (.rpcError "cannot estimate") rfl rfl).2 (by decide)⟩

/-- C4: gas estimation for deployment: if `eth_estimateGas` succeeds its
value is returned with no fallback; on an RPC-level rejection the
trace/call path runs on the estimate-projection message, whose reported
error (if any) is raised as the failure, and otherwise the distinct
`_EstimateGasFailed` condition is raised. -/
theorem C4_estimate_gas_fallback (o : RpcOracle) (tx : DeployTransaction) :
    (∀ g, o.estimateGas tx.get_estimate_msg = .ok g →
      _estimate_gas o tx = (.ok g, [.estimateGas tx.get_estimate_msg])) ∧
    (∀ i comp log err,
      o.estimateGas tx.get_estimate_msg = .error (.rpcError i) →
      _compute o tx.get_estimate_msg = (.ok comp, log) →
      comp.error = some err →
      _estimate_gas o tx =
        (.error (.vm err), .estimateGas tx.get_estimate_msg :: log)) ∧
    (∀ i comp log,
      o.estimateGas tx.get_estimate_msg = .error (.rpcError i) →
      _compute o tx.get_estimate_msg = (.ok comp, log) →
      comp.error = none →
      _estimate_gas o tx =
        (.error (.estimateGasFailed (.rpcError i)),
         .estimateGas tx.get_estimate_msg :: log)) := by
  refine ⟨?_, ?_, ?_⟩
  · intro g hg
    simp [_estimate_gas, hg]
  · intro i comp log err hi hcmp herr
    simp [_estimate_gas, hi, hcmp, herr]
  · intro i comp log hi hcmp herr
    simp [_estimate_gas, hi, hcmp, herr]

/-- Witness for C4: on `oracleTraceOk` the estimate `21000` is returned with
no fallback request; on `oracleEstFailRevert` the revert reported by the
fallback replaces the failure; on `oracleEstFailOk` the distinct
`_EstimateGasFailed` is raised. -/
theorem C4_estimate_gas_fallback_witness :
    _estimate_gas oracleTraceOk tx0 =
      (.ok 21000, [.estimateGas tx0.get_estimate_msg]) ∧
    _estimate_gas oracleEstFailRevert tx0 =
      (.error (.vm ⟨"execution reverted"⟩),
       [.estimateGas tx0.get_estimate_msg, .traceCall tx0.get_estimate_msg]) ∧
    _estimate_gas oracleEstFailOk tx0 =
      (.error (.estimateGasFailed (.rpcError "out of gas")),
       [.estimateGas tx0.get_estimate_msg, .traceCall tx0.get_estimate_msg]) :=
  ⟨(C4_estimate_gas_fallback oracleTraceOk tx0).1 21000 rfl,
   (C4_estimate_gas_fallback oracleEstFailRevert tx0).2.1 "out of gas"
     (ZksyncComputation.from_call_trace traceRevert)
     [.traceCall tx0.get_estimate_msg] ⟨"execution reverted"⟩ rfl rfl rfl,
   (C4_estimate_gas_fallback oracleEstFailOk tx0).2.2 "out of gas"
     (ZksyncComputation.from_call_trace trace0)
     [.traceCall tx0.get_estimate_msg] rfl rfl rfl⟩

/-- C7: deployment from a sender outside the account registry fails with
the `ValueError` whose message carries the known-account enumeration, and
the request log is empty: no network request — in particular not the
nonce/chain-id/gas-price fetch — is issued. -/
theorem C7_unknown_sender (o : RpcOracle) (accounts : List String)
    (prepare_calldata : List Nat → List Nat → List Nat → List Nat)
    (sign_typed_data : DeployTransaction → Nat → List Nat)
    (rlp_encode : DeployTransaction → List Nat → Nat → List Nat)
    (sender : String) (gas : Option Nat) (value : Nat) (bytecode : List Nat)
    (constructor_calldata : List Nat) (dependency_bytecodes : List (List Nat))
    (salt : List Nat) (mpf : Option Nat) (pp : Option (List Nat))
    (h : sender ∉ accounts) :
    deploy_code o accounts prepare_calldata sign_typed_data rlp_encode sender
        gas value bytecode constructor_calldata dependency_bytecodes salt
        mpf pp =
      (.error (.valueError (unknownSenderMsg sender accounts)), []) ∧
    (accounts ≠ [] →
      unknownSenderMsg sender accounts =
        "Account " ++ sender ++ " is not available. $" ++
          ("Known accounts: " ++ accountsRepr accounts)) := by
  constructor
  · simp [deploy_code, h]
  · intro hne
    simp [unknownSenderMsg, hne]

/-- Witness for C7 at a sender absent from a one-account registry. -/
theorem C7_unknown_sender_witness :
    deploy_code oracleTraceOk ["0xaa"] prep0 sign0 rlp0 "0xcc" none 0
        (List.replicate 64 0) [] [] (List.replicate 32 0) none none =
      (.error (.valueError (unknownSenderMsg "0xcc" ["0xaa"])), []) ∧
    (["0xaa"] ≠ ([] : List String) →
      unknownSenderMsg "0xcc" ["0xaa"] =
        "Account " ++ "0xcc" ++ " is not available. $" ++
          ("Known accounts: " ++ accountsRepr ["0xaa"])) :=
  C7_unknown_sender oracleTraceOk ["0xaa"] prep0 sign0 rlp0 "0xcc" none 0
    (List.replicate 64 0) [] [] (List.replicate 32 0) none none (by decide)

/-- Helper: the trace/call path never issues a batched fetch. -/
theorem _compute_no_fetchMulti (o : RpcOracle) (args : ZksyncMessage)
    (reqs : List (String × List String)) :
    RpcEvent.fetchMulti reqs ∉ (_compute o args).2 := by
  rcases _compute_log o args with h | h <;> simp [h]

/-- Helper: the gas-estimation path never issues a batched fetch. -/
theorem _estimate_gas_no_fetchMulti (o : RpcOracle) (tx : DeployTransaction)
    (reqs : List (String × List String)) :
    RpcEvent.fetchMulti reqs ∉ (_estimate_gas o tx).2 := by
  unfold _estimate_gas
  cases he : o.estimateGas tx.get_estimate_msg with
  | ok g => simp [he]
  | error f =>
    cases f with
    | httpError i => simp [he]
    | rpcError i =>
      rcases hc : _compute o tx.get_estimate_msg with ⟨r, log⟩
      have hl := _compute_no_fetchMulti o tx.get_estimate_msg reqs
      rw [hc] at hl
      cases r with
      | error e => simp [he, hc, hl]
      | ok comp => cases hce : comp.error <;> simp [he, hc, hce, hl]

/-- Helper: a successful `mapExcept` maps each element to its successful
image, pointwise. -/
theorem mapExcept_ok_forall₂ {α β ε : Type} (f : α → Except ε β)
    (l : List α) (r : List β) (h : mapExcept f l = .ok r) :
    List.Forall₂ (fun a b => f a = .ok b) l r := by
  induction l generalizing r with
  | nil =>
      simp [mapExcept] at h
      subst h
      exact List.Forall₂.nil
  | cons a as ih =>
      rw [mapExcept] at h
      cases hfa : f a with
      | error e => rw [hfa] at h; simp at h
      | ok b =>
        rw [hfa] at h
        cases hrest : mapExcept f as with
        | error e => rw [hrest] at h; simp at h
        | ok bs =>
          rw [hrest] at h
          simp at h
          subst h
          exact List.Forall₂.cons hfa (ih bs hrest)

/-- C9: for a known sender the first network request `deploy_code` issues is
the single batched `fetch_multi` holding exactly the transaction-count,
chain-id and gas-price requests, in that order; no other batched fetch is
ever issued, so all three values are in hand before the transaction is
assembled, estimated, signed or submitted. -/
theorem C9_batched_quote (o : RpcOracle) (accounts : List String)
    (prepare_calldata : List Nat → List Nat → List Nat → List Nat)
    (sign_typed_data : DeployTransaction → Nat → List Nat)
    (rlp_encode : DeployTransaction → List Nat → Nat → List Nat)
    (sender : String) (gas : Option Nat) (value : Nat) (bytecode : List Nat)
    (constructor_calldata : List Nat) (dependency_bytecodes : List (List Nat))
    (salt : List Nat) (mpf : Option Nat) (pp : Option (List Nat))
    (h : sender ∈ accounts) :
    quoteRequests sender =
      [("eth_getTransactionCount", [sender, "latest"]),
       ("eth_chainId", []), ("eth_gasPrice", [])] ∧
    ∃ rest,
      (deploy_code o accounts prepare_calldata sign_typed_data rlp_encode
          sender gas value bytecode constructor_calldata dependency_bytecodes
          salt mpf pp).2 =
        .fetchMulti (quoteRequests sender) :: rest ∧
      ∀ reqs, RpcEvent.fetchMulti reqs ∉ rest := by
  refine ⟨rfl, ?_⟩
  have hns : ¬ sender ∉ accounts := by simpa using h
  cases hf : o.fetchMulti (quoteRequests sender) with
  | error f =>
      refine ⟨[], ?_, by simp⟩
      simp [deploy_code, hns, hf]
  | ok triple =>
    obtain ⟨nonce, chain_id, gas_price⟩ := triple
    cases hh : _hash_code bytecode with
    | error e =>
        refine ⟨[], ?_, by simp⟩
        simp [deploy_code, hns, hf, hh]
    | ok bch =>
      cases hd : mapExcept _hash_code dependency_bytecodes with
      | error e =>
          refine ⟨[], ?_, by simp⟩
          simp [deploy_code, hns, hf, hh, hd]
      | ok dhs =>
        rcases he : _estimate_gas o (assembled_tx sender gas gas_price mpf
            nonce value prepare_calldata salt constructor_calldata bytecode
            bch dependency_bytecodes dhs chain_id pp) with ⟨r, log⟩
        have hfm : ∀ reqs, RpcEvent.fetchMulti reqs ∉ log := by
          intro reqs
          have hx := _estimate_gas_no_fetchMulti o (assembled_tx sender gas
            gas_price mpf nonce value prepare_calldata salt
            constructor_calldata bytecode bch dependency_bytecodes dhs
            chain_id pp) reqs
          rw [he] at hx
          exact hx
        cases r with
        | error e =>
            refine ⟨log, ?_, hfm⟩
            simp [deploy_code, hns, hf, hh, hd, he]
        | ok g =>
          cases hs : o.sendRawTransaction (rlp_encode (assembled_tx sender gas
              gas_price mpf nonce value prepare_calldata salt
              constructor_calldata bytecode bch dependency_bytecodes dhs
              chain_id pp) (sign_typed_data (assembled_tx sender gas gas_price
              mpf nonce value prepare_calldata salt constructor_calldata
              bytecode bch dependency_bytecodes dhs chain_id pp) g) g) with
          | error f2 =>
              refine ⟨log ++ [.sendRawTransaction (rlp_encode (assembled_tx
                sender gas gas_price mpf nonce value prepare_calldata salt
                constructor_calldata bytecode bch dependency_bytecodes dhs
                chain_id pp) (sign_typed_data (assembled_tx sender gas
                gas_price mpf nonce value prepare_calldata salt
                constructor_calldata bytecode bch dependency_bytecodes dhs
                chain_id pp) g) g)], ?_, ?_⟩
              · simp [deploy_code, hns, hf, hh, hd, he, hs]
              · intro reqs
                simp [hfm reqs]
          | ok tx_hash =>
            cases hr : o.waitForReceipt tx_hash with
            | error e2 =>
                refine ⟨log ++ [.sendRawTransaction (rlp_encode (assembled_tx
                  sender gas gas_price mpf nonce value prepare_calldata salt
                  constructor_calldata bytecode bch dependency_bytecodes dhs
                  chain_id pp) (sign_typed_data (assembled_tx sender gas
                  gas_price mpf nonce value prepare_calldata salt
                  constructor_calldata bytecode bch dependency_bytecodes dhs
                  chain_id pp) g) g), .waitForReceipt tx_hash], ?_, ?_⟩
                · simp [deploy_code, hns, hf, hh, hd, he, hs, hr]
                · intro reqs
                  simp [hfm reqs]
            | ok receipt =>
                refine ⟨log ++ [.sendRawTransaction (rlp_encode (assembled_tx
                  sender gas gas_price mpf nonce value prepare_calldata salt
                  constructor_calldata bytecode bch dependency_bytecodes dhs
                  chain_id pp) (sign_typed_data (assembled_tx sender gas
                  gas_price mpf nonce value prepare_calldata salt
                  constructor_calldata bytecode bch dependency_bytecodes dhs
                  chain_id pp) g) g), .waitForReceipt tx_hash], ?_, ?_⟩
                · simp [deploy_code, hns, hf, hh, hd, he, hs, hr]
                · intro reqs
                  simp [hfm reqs]

/-- Witness for C9 at a known one-account registry with the all-success
oracle. -/
theorem C9_batched_quote_witness :
    quoteRequests "0xaa" =
      [("eth_getTransactionCount", ["0xaa", "latest"]),
       ("eth_chainId", []), ("eth_gasPrice", [])] ∧
    ∃ rest,
      (deploy_code oracleTraceOk ["0xaa"] prep0 sign0 rlp0 "0xaa" none 0
          (List.replicate 64 0) [] [] (List.replicate 32 0) none none).2 =
        .fetchMulti (quoteRequests "0xaa") :: rest ∧
      ∀ reqs, RpcEvent.fetchMulti reqs ∉ rest :=
  C9_batched_quote oracleTraceOk ["0xaa"] prep0 sign0 rlp0 "0xaa" none 0
    (List.replicate 64 0) [] [] (List.replicate 32 0) none none (by decide)

/-- C8: the deployment happy path: with a known sender, the quote fetched,
the bytecode and all dependency hashes computed, estimation, submission and
the receipt all succeeding, the assembled transaction's `bytecode_hash` is
the bytecode hash of `B`, its `dependency_bytecode_hashes` is parallel to
`dependency_bytecodes` with each element the hash of the corresponding
dependency, and `deploy_code` returns the receipt's `contractAddress`
together with the original bytecode unchanged. -/
theorem C8_deploy_happy_path (o : RpcOracle) (accounts : List String)
    (prepare_calldata : List Nat → List Nat → List Nat → List Nat)
    (sign_typed_data : DeployTransaction → Nat → List Nat)
    (rlp_encode : DeployTransaction → List Nat → Nat → List Nat)
    (sender : String) (gas : Option Nat) (value : Nat) (bytecode : List Nat)
    (constructor_calldata : List Nat) (dependency_bytecodes : List (List Nat))
    (salt : List Nat) (mpf : Option Nat) (pp : Option (List Nat))
    (nonce chain_id gas_price : Nat) (bch : List Nat) (dhs : List (List Nat))
    (tx : DeployTransaction) (g : Nat) (tx_hash : String) (receipt : Receipt)
    (hmem : sender ∈ accounts)
    (hf : o.fetchMulti (quoteRequests sender) = .ok (nonce, chain_id, gas_price))
    (hh : _hash_code bytecode = .ok bch)
    (hd : mapExcept _hash_code dependency_bytecodes = .ok dhs)
    (htx : tx = assembled_tx sender gas gas_price mpf nonce value
      prepare_calldata salt constructor_calldata bytecode bch
      dependency_bytecodes dhs chain_id pp)
    (he : o.estimateGas tx.get_estimate_msg = .ok g)
    (hs : o.sendRawTransaction (rlp_encode tx (sign_typed_data tx g) g) =
      .ok tx_hash)
    (hr : o.waitForReceipt tx_hash = .ok receipt) :
    (deploy_code o accounts prepare_calldata sign_typed_data rlp_encode sender
        gas value bytecode constructor_calldata dependency_bytecodes salt
        mpf pp).1 = .ok (receipt.contractAddress, bytecode) ∧
    tx.bytecode_hash = bch ∧
    tx.dependency_bytecode_hashes.length = dependency_bytecodes.length ∧
    List.Forall₂ (fun bc hc => _hash_code bc = .ok hc)
      dependency_bytecodes tx.dependency_bytecode_hashes := by
  subst htx
  have hfa := mapExcept_ok_forall₂ _hash_code dependency_bytecodes dhs hd
  have hns : ¬ sender ∉ accounts := by simpa using hmem
  have hest : _estimate_gas o (assembled_tx sender gas gas_price mpf nonce
      value prepare_calldata salt constructor_calldata bytecode bch
      dependency_bytecodes dhs chain_id pp) =
      (.ok g, [.estimateGas (assembled_tx sender gas gas_price mpf nonce
        value prepare_calldata salt constructor_calldata bytecode bch
        dependency_bytecodes dhs chain_id pp).get_estimate_msg]) := by
    simp [_estimate_gas, he]
  refine ⟨?_, rfl, ?_, ?_⟩
  · simp [deploy_code, hns, hf, hh, hd, hest, hs, hr]
  · simpa [assembled_tx] using hfa.length_eq.symm
  · simpa [assembled_tx] using hfa

/-- Witness for C8: deploying the all-zero 64-byte bytecode (`k = 2`) with
nonce 7, chain id 280 and gas price 100 from the all-success oracle. -/
theorem C8_deploy_happy_path_witness :
    (deploy_code oracleTraceOk ["0xaa"] prep0 sign0 rlp0 "0xaa" none 0
        (List.replicate 64 0) [] [] (List.replicate 32 0) none none).1 =
      .ok ((⟨"0xblock", "0xcontract"⟩ : Receipt).contractAddress,
           List.replicate 64 0) ∧
    tx64.bytecode_hash = bch64 ∧
    tx64.dependency_bytecode_hashes.length = ([] : List (List Nat)).length ∧
    List.Forall₂ (fun bc hc => _hash_code bc = .ok hc) ([] : List (List Nat))
      tx64.dependency_bytecode_hashes :=
  C8_deploy_happy_path oracleTraceOk ["0xaa"] prep0 sign0 rlp0 "0xaa" none 0
    (List.replicate 64 0) [] [] (List.replicate 32 0) none none 7 280 100
    bch64 [] tx64 21000 "0xtxhash" ⟨"0xblock", "0xcontract"⟩
    (by decide) rfl rfl rfl rfl rfl rfl rfl

end BoaZk
